import Mathlib

/-!
# Verification of the creator.v3 real-time signaling subsystem

This file gives a shallow embedding, in Lean 4, of the signaling and
session-coordination code of the repository:

* `Signaling` — the WebSocket signaling server
  (`src/server/signaling-server.js`): the stream registry
  (`streamId -> { broadcaster, viewers }`), the per-connection message
  handler, the close handler, and the positional viewer-id helpers
  `getViewerId` / `findViewerById`.
* `BC` — the BroadcastChannel-based client streamer
  (`src/lib/webrtc-stream.ts`, class `WebRTCStreamer`): signaling
  dispatch, offer/answer/ICE-candidate handling, `stopBroadcast`,
  `close`.
* `Player` — the viewer-side connection retry loop of the
  `StreamPlayer` component (`src/unnamed/part_006`, `connectToStream`).
* `WS` — the reconnect/backoff logic of the WebSocket-based client
  streamer (`handleDisconnect` in the `WebRTCStreamer` class that ships
  in the same file as `src/lib/bonding-curves.ts`).
* `ABR` — the `AdaptiveBitrateController` of
  `src/lib/streaming/webrtc-manager.ts`.

JavaScript `Map`s keyed by strings are embedded as functions
`String → Option _` (the code only ever uses `get`/`set`/`has`/`delete`,
never iteration over the map, so the function representation is
observationally faithful).  JavaScript `Set`s of connections are
embedded as insertion-ordered duplicate-free lists (`Array.from` on a
`Set` yields insertion order, which the positional viewer-id helpers
depend on).  Connections are opaque handles (`Nat`).  Asynchronous
browser primitives that can fail (`setRemoteDescription`,
`createAnswer`, `setLocalDescription`, `addIceCandidate`,
`createOffer`) are driven by an explicit success oracle; the
try/catch structure of the source is translated into explicit
control flow over that oracle.
-/

namespace Signaling

/-- Opaque connection handle (a `ws` object in the source). -/
abbrev Conn := Nat

/-- The per-connection `role` variable: `'broadcaster'` or `'viewer'`. -/
inductive Role where
  | broadcaster
  | viewer
deriving DecidableEq, Repr

/-- A registry entry: `{ broadcaster: ws | null, viewers: Set<ws> }`.
The viewer list is kept in insertion order, mirroring a JS `Set`. -/
structure Session where
  broadcaster : Option Conn
  viewers : List Conn
deriving DecidableEq, Repr

/-- The three relayed signaling message kinds (`offer`, `answer`,
`ice-candidate`). -/
inductive SigKind where
  | offer
  | answer
  | iceCandidate
deriving DecidableEq, Repr

/-- Parsed inbound messages, per the `switch (data.type)` of the
`message` handler.  `signal` covers the three relayed kinds; the
payload (`data.data`) is opaque. -/
inductive InMsg where
  | joinAsBroadcaster (streamId : String)
  | joinAsViewer (streamId : String)
  | requestStream
  | signal (kind : SigKind) (payload : String) (targetViewerId : Option String)
deriving DecidableEq, Repr

/-- Messages the server sends to a connection. -/
inductive OutMsg where
  | broadcasterAvailable
  | broadcasterLeft
  | viewerRequest (viewerId : String)
  | forward (kind : SigKind) (payload : String)
  | forwardFromViewer (kind : SigKind) (payload : String) (viewerId : String)
deriving DecidableEq, Repr

/-- The two per-connection closure variables of the `connection`
handler: `currentStreamId` and `role`. -/
structure ConnInfo where
  currentStreamId : Option String
  role : Option Role
deriving DecidableEq, Repr

/-- Whole-server state: the `streams` registry, the per-connection
closure variables, and each connection's transport state
(`readyState === OPEN`). -/
structure ServerState where
  streams : String → Option Session
  conns : Conn → ConnInfo
  isOpen : Conn → Bool

/-- `streams.set(k, v)` (and `streams.get(k)` is plain application). -/
def setStream (f : String → Option Session) (k : String) (v : Session) :
    String → Option Session :=
  fun x => if x = k then some v else f x

/-- `streams.delete(k)`. -/
def delStream (f : String → Option Session) (k : String) :
    String → Option Session :=
  fun x => if x = k then none else f x

/-- Update one connection's closure variables. -/
def setConn (f : Conn → ConnInfo) (c : Conn) (v : ConnInfo) : Conn → ConnInfo :=
  fun x => if x = c then v else f x

/-- `Set.add`: append unless already present (JS `Set` keeps the first
insertion position). -/
def addViewer (l : List Conn) (c : Conn) : List Conn :=
  if c ∈ l then l else l ++ [c]

/-- Position of a connection in `Array.from(viewers)`
(`Array.prototype.indexOf`, as an `Option`). -/
def idxOf? (l : List Conn) (c : Conn) : Option Nat :=
  match l with
  | [] => none
  | x :: rest => if x = c then some 0 else (idxOf? rest c).map (· + 1)

/-- `getViewerId(ws, streamId)`: derive the id from the position of
`ws` in the current viewer set; fall back to a timestamp id
(`viewer-${Date.now()}`, with the current time passed in explicitly)
when the stream or the position is missing. -/
def getViewerId (streams : String → Option Session) (ws : Conn)
    (streamId : String) (now : Nat) : String :=
  match streams streamId with
  | some sess =>
    match idxOf? sess.viewers ws with
    | some i => "viewer-" ++ toString i
    | none => "viewer-" ++ toString now
  | none => "viewer-" ++ toString now

/-- Decimal value of a digit character (`none` for non-digits). -/
def digitVal? (c : Char) : Option Nat :=
  if c = '0' then some 0 else if c = '1' then some 1 else if c = '2' then some 2
  else if c = '3' then some 3 else if c = '4' then some 4 else if c = '5' then some 5
  else if c = '6' then some 6 else if c = '7' then some 7 else if c = '8' then some 8
  else if c = '9' then some 9 else none

/-- Hexadecimal value of a digit character (`none` for non-hex
characters). -/
def hexVal? (c : Char) : Option Nat :=
  match digitVal? c with
  | some d => some d
  | none =>
    if c = 'a' ∨ c = 'A' then some 10
    else if c = 'b' ∨ c = 'B' then some 11
    else if c = 'c' ∨ c = 'C' then some 12
    else if c = 'd' ∨ c = 'D' then some 13
    else if c = 'e' ∨ c = 'E' then some 14
    else if c = 'f' ∨ c = 'F' then some 15
    else none

/-- Value of the leading run of digits of the given radix (digit test
supplied as `val`), accumulated left-to-right; `none` when the run is
empty. -/
def leadingRun (val : Char → Option Nat) (base : Nat) :
    List Char → Option Nat → Option Nat
  | [], acc => acc
  | c :: rest, acc =>
    match val c with
    | some d => leadingRun val base rest (some (acc.getD 0 * base + d))
    | none => acc

/-- Character-list prefix test. -/
def listIsPrefixOf : List Char → List Char → Bool
  | [], _ => true
  | _ :: _, [] => false
  | a :: as, b :: bs => if a = b then listIsPrefixOf as bs else false

/-- The ECMA-262 `StrWhiteSpaceChar` set that `parseInt` skips:
WhiteSpace (TAB, VT, FF, SP, NBSP, ZWNBSP and the Unicode
space separators) and the line terminators (LF, CR, LS, PS). -/
def isJsWhitespace (c : Char) : Bool :=
  if c = '\t' ∨ c = '\n' ∨ c = '\x0b' ∨ c = '\x0c' ∨ c = '\r' ∨ c = ' '
      ∨ c = '\u00A0' ∨ c = '\u1680' ∨ c = '\u2000' ∨ c = '\u2001'
      ∨ c = '\u2002' ∨ c = '\u2003' ∨ c = '\u2004' ∨ c = '\u2005'
      ∨ c = '\u2006' ∨ c = '\u2007' ∨ c = '\u2008' ∨ c = '\u2009'
      ∨ c = '\u200A' ∨ c = '\u2028' ∨ c = '\u2029' ∨ c = '\u202F'
      ∨ c = '\u205F' ∨ c = '\u3000' ∨ c = '\uFEFF'
  then true else false

/-- After whitespace and sign are consumed: `parseInt`'s digit scan.
A leading `0x`/`0X` switches to hexadecimal; otherwise the longest
leading run of decimal digits is read; an empty run is `NaN`. -/
def parseIntDigits : List Char → Option Nat
  | '0' :: c :: rest =>
    if c = 'x' ∨ c = 'X' then leadingRun hexVal? 16 rest none
    else leadingRun digitVal? 10 ('0' :: c :: rest) none
  | cs => leadingRun digitVal? 10 cs none

/-- `parseInt(s)` per ECMA-262 (radix argument omitted): skip leading
whitespace, read an optional `+`/`-` sign, honor a `0x`/`0X`
hexadecimal prefix, then read the longest run of digits of the radix;
`none` plays the role of `NaN`.  The digit run is valued exactly (an
index long enough for JS float rounding to differ exceeds every
possible JS array length, where source and model alike resolve no
viewer). -/
def parseIntJS (s : String) : Option Int :=
  match s.data.dropWhile isJsWhitespace with
  | '+' :: rest => (parseIntDigits rest).map (fun n => (n : Int))
  | '-' :: rest => (parseIntDigits rest).map (fun n => -(n : Int))
  | cs => (parseIntDigits cs).map (fun n => (n : Int))

/-- Remove the first occurrence of `pat` anywhere in the list (the
effect of JS `String.prototype.replace` with a string pattern and an
empty replacement); the list is unchanged when `pat` does not occur. -/
def replaceFirstAux (pat : List Char) : List Char → List Char
  | [] => []
  | c :: rest =>
    if listIsPrefixOf pat (c :: rest) then (c :: rest).drop pat.length
    else c :: replaceFirstAux pat rest

/-- `viewerId.replace('viewer-', '')`: delete the first occurrence of
`"viewer-"` anywhere in the string. -/
def replaceFirstViewer (s : String) : String :=
  String.mk (replaceFirstAux "viewer-".data s.data)

/-- `findViewerById(viewers, viewerId)`:
`parseInt(viewerId.replace('viewer-', ''))`, then index into
`Array.from(viewers)`; a `NaN`, negative or out-of-range index yields
`null` (via `viewerArray[index] || null`; the array holds socket
objects, which are never falsy). -/
def findViewerById (viewers : List Conn) (viewerId : String) : Option Conn :=
  match parseIntJS (replaceFirstViewer viewerId) with
  | some i => if i < 0 then none else viewers.get? i.toNat
  | none => none

/-- The `request-stream` case: it only produces output (the registry is
not mutated).  Guarded by `currentStreamId && streams.has(...)`
(JS truthiness: the empty string fails the guard) and by the
broadcaster's socket being open. -/
def requestStreamOut (s : ServerState) (c : Conn) (now : Nat) :
    List (Conn × OutMsg) :=
  match (s.conns c).currentStreamId with
  | some sid =>
    if sid = "" then [] else
    match s.streams sid with
    | some sess =>
      match sess.broadcaster with
      | some b =>
        if s.isOpen b then
          [(b, OutMsg.viewerRequest (getViewerId s.streams c sid now))]
        else []
      | none => []
    | none => []
  | none => []

/-- The `offer`/`answer`/`ice-candidate` relay case: output only.
From a broadcaster: unicast to the resolved `targetViewerId`
(`data.targetViewerId ? findViewerById(...) : null`, so a missing or
empty target falls through), otherwise fan out to every viewer whose
socket is open.  From a viewer: deliver to the session's broadcaster,
tagged with the sender's positional viewer id. -/
def relayOut (s : ServerState) (c : Conn) (now : Nat) (kind : SigKind)
    (payload : String) (target : Option String) : List (Conn × OutMsg) :=
  match (s.conns c).currentStreamId with
  | some sid =>
    if sid = "" then [] else
    match s.streams sid with
    | some sess =>
      match (s.conns c).role with
      | some Role.broadcaster =>
        let targetViewer : Option Conn :=
          match target with
          | some tv => if tv = "" then none else findViewerById sess.viewers tv
          | none => none
        match targetViewer with
        | some v => [(v, OutMsg.forward kind payload)]
        | none =>
          (sess.viewers.filter (fun v => s.isOpen v)).map
            (fun v => (v, OutMsg.forward kind payload))
      | some Role.viewer =>
        match sess.broadcaster with
        | some b =>
          if s.isOpen b then
            [(b, OutMsg.forwardFromViewer kind payload
                  (getViewerId s.streams c sid now))]
          else []
        | none => []
      | none => []
    | none => []
  | none => []

/-- One step of the `ws.on('message')` switch for a successfully parsed
message, returning the new server state and the messages sent. -/
def handleMessage (s : ServerState) (c : Conn) (now : Nat) (m : InMsg) :
    ServerState × List (Conn × OutMsg) :=
  match m with
  | InMsg.joinAsBroadcaster sid =>
    let conns' := setConn s.conns c ⟨some sid, some Role.broadcaster⟩
    let streams0 :=
      match s.streams sid with
      | none => setStream s.streams sid ⟨none, []⟩
      | some _ => s.streams
    let sess := (streams0 sid).getD ⟨none, []⟩
    let streams' := setStream streams0 sid { sess with broadcaster := some c }
    ({ streams := streams', conns := conns', isOpen := s.isOpen },
     sess.viewers.map (fun v => (v, OutMsg.broadcasterAvailable)))
  | InMsg.joinAsViewer sid =>
    let conns' := setConn s.conns c ⟨some sid, some Role.viewer⟩
    let streams0 :=
      match s.streams sid with
      | none => setStream s.streams sid ⟨none, []⟩
      | some _ => s.streams
    let sess := (streams0 sid).getD ⟨none, []⟩
    let streams' := setStream streams0 sid
      { sess with viewers := addViewer sess.viewers c }
    ({ streams := streams', conns := conns', isOpen := s.isOpen },
     match sess.broadcaster with
     | some _ => [(c, OutMsg.broadcasterAvailable)]
     | none => [])
  | InMsg.requestStream => (s, requestStreamOut s c now)
  | InMsg.signal kind payload target => (s, relayOut s c now kind payload target)

/-- The role-dependent mutation the close handler applies to the
session before its cleanup check: clear the broadcaster field, or
remove the closing viewer from the viewer set. -/
def closeMutation (sess : Session) (r : Role) (c : Conn) : Session :=
  match r with
  | Role.broadcaster => { sess with broadcaster := none }
  | Role.viewer => { sess with viewers := sess.viewers.erase c }

/-- The `ws.on('close')` handler: clear the broadcaster field (notifying
open viewers) or remove the viewer, then delete the session when it has
neither a broadcaster nor viewers.  The closing socket itself is no
longer open. -/
def handleClose (s : ServerState) (c : Conn) : ServerState × List (Conn × OutMsg) :=
  let isOpen' := fun x => if x = c then false else s.isOpen x
  match (s.conns c).currentStreamId with
  | some sid =>
    if sid = "" then
      ({ streams := s.streams, conns := s.conns, isOpen := isOpen' }, [])
    else
    match s.streams sid with
    | some sess =>
      match (s.conns c).role with
      | some r =>
        let sess' := closeMutation sess r c
        let outs :=
          match r with
          | Role.broadcaster =>
            (sess.viewers.filter (fun v => isOpen' v)).map
              (fun v => (v, OutMsg.broadcasterLeft))
          | Role.viewer => []
        let streams' :=
          if sess'.broadcaster = none ∧ sess'.viewers = [] then
            delStream s.streams sid
          else setStream s.streams sid sess'
        ({ streams := streams', conns := s.conns, isOpen := isOpen' }, outs)
      | none =>
        let streams' :=
          if sess.broadcaster = none ∧ sess.viewers = [] then
            delStream s.streams sid
          else s.streams
        ({ streams := streams', conns := s.conns, isOpen := isOpen' }, [])
    | none =>
      ({ streams := s.streams, conns := s.conns, isOpen := isOpen' }, [])
  | none =>
    ({ streams := s.streams, conns := s.conns, isOpen := isOpen' }, [])

/-- The whole `message` listener: `JSON.parse` and the switch inside one
`try`/`catch`.  `none` stands for a malformed payload (the parse
throws): the error is logged (the `Bool` component), the message is
discarded, nothing else happens. -/
def handleRaw (s : ServerState) (c : Conn) (now : Nat) (raw : Option InMsg) :
    ServerState × List (Conn × OutMsg) × Bool :=
  match raw with
  | none => (s, [], true)
  | some m =>
    let r := handleMessage s c now m
    (r.1, r.2, false)

/-- Serialized server events: one inbound (possibly malformed) message,
or one transport-level close. -/
inductive Event where
  | message (c : Conn) (now : Nat) (raw : Option InMsg)
  | connClose (c : Conn)

/-- One serialized message-handling step of the server. -/
def step (s : ServerState) : Event → ServerState × List (Conn × OutMsg)
  | Event.message c now raw =>
    let r := handleRaw s c now raw
    (r.1, r.2.1)
  | Event.connClose c => handleClose s c

/-- Registry well-formedness: every session present in the registry has
a broadcaster or at least one viewer. -/
def SessionsWF (s : ServerState) : Prop :=
  ∀ sid sess, s.streams sid = some sess →
    sess.broadcaster ≠ none ∨ sess.viewers ≠ []

/-- The state of a freshly started server: empty registry, no
connection has joined, every connection's transport is open. -/
def initialState : ServerState :=
  { streams := fun _ => none
    conns := fun _ => ⟨none, none⟩
    isOpen := fun _ => true }

end Signaling

namespace BC

/-- Opaque ICE candidate payload. -/
abbrev Cand := String

/-- A `MediaStreamTrack`: its kind and whether `readyState === 'live'`. -/
structure Track where
  kind : String
  live : Bool
deriving DecidableEq, Repr

/-- The observable negotiation state of one `RTCPeerConnection`:
whether the remote/local descriptions have been set, the remote
candidates successfully added (in order), and the attached local
tracks.  There is no buffered-candidate queue: the source class keeps
none. -/
structure PeerConn where
  remoteDescSet : Bool
  localDescSet : Bool
  applied : List Cand
  tracks : List Track
deriving DecidableEq, Repr

/-- `createPeerConnection()`: a fresh connection, no descriptions, no
candidates; tracks as attached by the caller. -/
def freshPeerConnection (tracks : List Track) : PeerConn :=
  { remoteDescSet := false, localDescSet := false, applied := [], tracks := tracks }

/-- The fields of `WebRTCStreamer` (src/lib/webrtc-stream.ts) relevant
to negotiation: `peerConnection`, whether the `BroadcastChannel` is
still open, whether `onViewerRequest` is installed (by
`startBroadcast`), `localStream`, and whether `onStreamCallback` is
installed (by `startViewing`). -/
structure StreamerState where
  peerConnection : Option PeerConn
  signalingOpen : Bool
  viewerRequestHandlerInstalled : Bool
  localStream : Option (List Track)
  streamCallbackInstalled : Bool
deriving DecidableEq, Repr

/-- Success oracle for the asynchronous browser primitives.  It models
the environment: each field says whether the corresponding call would
succeed if made now.  `addIceCandidate` additionally requires a remote
description (see `rtcAddIceCandidateOk`). -/
structure Oracle where
  setRemoteDescriptionOk : Bool
  createAnswerOk : Bool
  setLocalDescriptionOk : Bool
  addIceCandidateOk : Bool
  createOfferOk : Bool
deriving DecidableEq, Repr

/-- The environment in which every primitive succeeds. -/
def allOk : Oracle := ⟨true, true, true, true, true⟩

/-- The asynchronous primitives a handler can invoke, used to record
how often each one is attempted. -/
inductive PrimOp where
  | setRemoteDescription
  | createAnswer
  | setLocalDescription
  | addIceCandidate
  | createOffer
deriving DecidableEq, Repr

/-- Messages posted on the signaling channel by the streamer. -/
inductive OutSig where
  | requestStream
  | offer (sdp : String)
  | answer (sdp : String)
  | iceCandidate (c : Cand)
deriving DecidableEq, Repr

/-- Observable outcome of running one handler: messages posted, whether
an error was logged (`console.error`), whether the handler's returned
promise rejects, and which primitives were attempted, in order. -/
structure HOut where
  sent : List OutSig
  errorLogged : Bool
  rejected : Bool
  attempts : List PrimOp
deriving DecidableEq, Repr

/-- No output at all. -/
def silent : HOut := ⟨[], false, false, []⟩

/-- State right after `new WebRTCStreamer(streamId)`: the channel is
open and `setupSignaling` has installed the dispatcher; nothing else
is set. -/
def newStreamerState : StreamerState :=
  { peerConnection := none
    signalingOpen := true
    viewerRequestHandlerInstalled := false
    localStream := none
    streamCallbackInstalled := false }

/-- Opaque SDP produced by `createAnswer`. -/
def answerSdp : String := "answer-sdp"

/-- Opaque SDP produced by `createOffer`. -/
def offerSdp : String := "offer-sdp"

/-- Whether `pc.addIceCandidate(candidate)` succeeds: per the W3C
WebRTC specification the call rejects with `InvalidStateError` when no
remote description has been set; otherwise success is up to the
environment oracle. -/
def rtcAddIceCandidateOk (pc : PeerConn) (o : Oracle) : Bool :=
  pc.remoteDescSet && o.addIceCandidateOk

/-- `handleOffer`: guard on a missing peer connection (log, return),
then `setRemoteDescription`; `createAnswer`; `setLocalDescription`;
post the answer — all inside one `try`/`catch` whose `catch` only
logs.  The handler itself never rejects. -/
def handleOffer (st : StreamerState) (o : Oracle) (_sdp : String) :
    StreamerState × HOut :=
  match st.peerConnection with
  | none => (st, ⟨[], true, false, []⟩)
  | some pc =>
    if o.setRemoteDescriptionOk then
      let pc1 := { pc with remoteDescSet := true }
      if o.createAnswerOk then
        if o.setLocalDescriptionOk then
          ({ st with peerConnection := some { pc1 with localDescSet := true } },
           ⟨[OutSig.answer answerSdp], false, false,
            [PrimOp.setRemoteDescription, PrimOp.createAnswer,
             PrimOp.setLocalDescription]⟩)
        else
          ({ st with peerConnection := some pc1 },
           ⟨[], true, false,
            [PrimOp.setRemoteDescription, PrimOp.createAnswer,
             PrimOp.setLocalDescription]⟩)
      else
        ({ st with peerConnection := some pc1 },
         ⟨[], true, false, [PrimOp.setRemoteDescription, PrimOp.createAnswer]⟩)
    else (st, ⟨[], true, false, [PrimOp.setRemoteDescription]⟩)

/-- `handleAnswer`: guard on a missing peer connection, then
`setRemoteDescription` inside `try`/`catch` (the `catch` only logs). -/
def handleAnswer (st : StreamerState) (o : Oracle) (_sdp : String) :
    StreamerState × HOut :=
  match st.peerConnection with
  | none => (st, ⟨[], true, false, []⟩)
  | some pc =>
    if o.setRemoteDescriptionOk then
      ({ st with peerConnection := some { pc with remoteDescSet := true } },
       ⟨[], false, false, [PrimOp.setRemoteDescription]⟩)
    else (st, ⟨[], true, false, [PrimOp.setRemoteDescription]⟩)

/-- `handleIceCandidate`: guard on a missing peer connection (log,
drop), then attempt `addIceCandidate` immediately — there is no
queueing — inside `try`/`catch` (the `catch` only logs, so a failed
add drops the candidate). -/
def handleIceCandidate (st : StreamerState) (o : Oracle) (c : Cand) :
    StreamerState × HOut :=
  match st.peerConnection with
  | none => (st, ⟨[], true, false, []⟩)
  | some pc =>
    if rtcAddIceCandidateOk pc o then
      ({ st with peerConnection := some { pc with applied := pc.applied ++ [c] } },
       ⟨[], false, false, [PrimOp.addIceCandidate]⟩)
    else (st, ⟨[], true, false, [PrimOp.addIceCandidate]⟩)

/-- `startViewing(onStream)`: install the stream callback, create the
peer connection synchronously, and post `request-stream`. -/
def startViewing (st : StreamerState) : StreamerState × List OutSig :=
  ({ st with
      streamCallbackInstalled := true
      peerConnection := some (freshPeerConnection []) },
   [OutSig.requestStream])

/-- `startBroadcast(stream)`: store the local stream; if it has no
tracks, log and return without installing the viewer-request handler;
otherwise install `onViewerRequest`. -/
def startBroadcast (st : StreamerState) (tracks : List Track) : StreamerState :=
  if tracks = [] then { st with localStream := some tracks }
  else { st with localStream := some tracks, viewerRequestHandlerInstalled := true }

/-- The `onViewerRequest` closure installed by `startBroadcast`: check
that the stored stream still has live tracks (else log and return),
close any existing peer connection, create a fresh one, attach every
stored track, `createOffer`, `setLocalDescription`, and post the
offer.  These two awaits are not wrapped in `try`/`catch`, so their
rejection propagates out of the handler. -/
def onViewerRequest (st : StreamerState) (o : Oracle) : StreamerState × HOut :=
  match st.localStream with
  | none => (st, ⟨[], true, true, []⟩)
  | some tracks =>
    if (tracks.filter (fun t => t.live)).isEmpty then (st, ⟨[], true, false, []⟩)
    else
      let pc0 := freshPeerConnection tracks
      if o.createOfferOk then
        if o.setLocalDescriptionOk then
          ({ st with peerConnection := some { pc0 with localDescSet := true } },
           ⟨[OutSig.offer offerSdp], false, false,
            [PrimOp.createOffer, PrimOp.setLocalDescription]⟩)
        else
          ({ st with peerConnection := some pc0 },
           ⟨[], false, true, [PrimOp.createOffer, PrimOp.setLocalDescription]⟩)
      else
        ({ st with peerConnection := some pc0 },
         ⟨[], false, true, [PrimOp.createOffer]⟩)

/-- Inbound signaling messages seen by the dispatcher. -/
inductive InSig where
  | requestStream
  | offer (sdp : String)
  | answer (sdp : String)
  | iceCandidate (c : Cand)
deriving DecidableEq, Repr

/-- The `onmessage` dispatcher installed by `setupSignaling`: a closed
channel delivers nothing; `request-stream` is handled before the
peer-connection guard; every other message is ignored when no peer
connection exists, else dispatched to the matching handler. -/
def onSignalMessage (st : StreamerState) (o : Oracle) (m : InSig) :
    StreamerState × HOut :=
  if st.signalingOpen = false then (st, silent)
  else
    match m with
    | InSig.requestStream =>
      if st.viewerRequestHandlerInstalled then onViewerRequest st o
      else (st, silent)
    | InSig.offer sdp =>
      match st.peerConnection with
      | none => (st, silent)
      | some _ => handleOffer st o sdp
    | InSig.answer sdp =>
      match st.peerConnection with
      | none => (st, silent)
      | some _ => handleAnswer st o sdp
    | InSig.iceCandidate c =>
      match st.peerConnection with
      | none => (st, silent)
      | some _ => handleIceCandidate st o c

/-- `stopBroadcast()`: close and null the peer connection, touching
nothing else. -/
def stopBroadcast (st : StreamerState) : StreamerState :=
  { st with peerConnection := none }

/-- `close()`: `stopBroadcast` plus closing the signaling channel. -/
def close (st : StreamerState) : StreamerState :=
  { stopBroadcast st with signalingOpen := false }

end BC

namespace Player

/-- `maxRetries` in the `StreamPlayer` connection effect. -/
def maxRetries : Nat := 10

/-- The constant `setTimeout` delay (ms) before each retry. -/
def retryDelayMs : Nat := 3000

/-- The `connectionStatus` React state. -/
inductive ConnStatus where
  | connected
  | buffering
  | disconnected
deriving DecidableEq, Repr

/-- State of the `StreamPlayer` connection effect: `retryCount`,
`connected`, whether a retry timer is pending, and the displayed
connection status. -/
structure RetryState where
  retryCount : Nat
  connected : Bool
  timerPending : Bool
  status : ConnStatus
deriving DecidableEq, Repr

/-- State at the top of the effect when the stream is live:
`setConnectionStatus('buffering')`, `retryCount = 0`,
`connected = false`. -/
def initialRetryState : RetryState :=
  { retryCount := 0, connected := false, timerPending := false
    status := ConnStatus.buffering }

/-- `connectToStream()`: bail out if already connected, else (re)create
the streamer, start viewing, and schedule one retry timer with the
constant 3000 ms delay.  The second component is the delay of the
timer scheduled by this call, if any. -/
def connectToStream (s : RetryState) : RetryState × Option Nat :=
  if s.connected then (s, none)
  else ({ s with timerPending := true }, some retryDelayMs)

/-- The retry timer firing: if still unconnected and under the ceiling,
increment `retryCount` and call `connectToStream` again; otherwise do
nothing further. -/
def timerFires (s : RetryState) : RetryState × Option Nat :=
  if ¬ s.connected ∧ s.retryCount < maxRetries then
    connectToStream { s with retryCount := s.retryCount + 1, timerPending := false }
  else ({ s with timerPending := false }, none)

/-- The `startViewing` callback receiving a stream: mark connected,
clear the retry timer, and set the status to `connected`. -/
def streamReceived (s : RetryState) : RetryState :=
  { s with connected := true, timerPending := false, status := ConnStatus.connected }

/-- The run in which the broadcaster never answers: the initial
`connectToStream()` followed by successive timer firings.  The second
component of entry `n` is the delay scheduled at step `n` (step `0` is
the initial call; step `n + 1` is the `n`-th timer firing). -/
def retryTrace : Nat → RetryState × Option Nat
  | 0 => connectToStream initialRetryState
  | n + 1 => timerFires (retryTrace n).1

end Player

namespace WS

/-- `maxReconnectAttempts` of the WebSocket-based `WebRTCStreamer`. -/
def maxReconnectAttempts : Nat := 5

/-- The base of the `2000 * this.reconnectAttempts` backoff (ms). -/
def baseDelayMs : Nat := 2000

/-- Reconnect-relevant state of the WebSocket streamer:
`reconnectAttempts` and whether `this.role` is set. -/
structure CoordState where
  reconnectAttempts : Nat
  hasRole : Bool
deriving DecidableEq, Repr

/-- Observable outcome of `handleDisconnect`: the delay of the
scheduled reconnect timer, if one was scheduled, and whether any
caller-visible failure was raised.  The source has no channel that
could raise one — `handleDisconnect` only logs and schedules — so the
translation can only ever set `surfacedFailure := false`. -/
structure DisconnectOut where
  scheduledDelay : Option Nat
  surfacedFailure : Bool
deriving DecidableEq, Repr

/-- `handleDisconnect()`: under the ceiling and with a role
established, increment `reconnectAttempts` and schedule one reconnect
after `2000 * reconnectAttempts` ms; at or past the ceiling (or with
no role) do nothing at all. -/
def handleDisconnect (s : CoordState) : CoordState × DisconnectOut :=
  if s.reconnectAttempts < maxReconnectAttempts ∧ s.hasRole then
    let s' : CoordState := { s with reconnectAttempts := s.reconnectAttempts + 1 }
    (s', ⟨some (baseDelayMs * s'.reconnectAttempts), false⟩)
  else (s, ⟨none, false⟩)

/-- The `ws.onopen` handler resets the attempt counter. -/
def onOpen (s : CoordState) : CoordState :=
  { s with reconnectAttempts := 0 }

end WS

namespace ABR

/-- Network metrics derived by `analyzeStats`: packet-loss percentage,
round-trip time in ms, and send bandwidth.  Embedded over `ℚ`. -/
structure Metrics where
  packetLoss : ℚ
  rtt : ℚ
  bandwidth : ℚ
deriving DecidableEq, Repr

/-- State of `AdaptiveBitrateController`: the active tier index
(0 = 480p, 1 = 720p, 2 = 1080p) and the `lastAdjustment` timestamp. -/
structure ABRState where
  currentQuality : Nat
  lastAdjustment : Nat
deriving DecidableEq, Repr

/-- `adjustmentThreshold`: the 5-second minimum sampling interval. -/
def adjustmentThreshold : Nat := 5000

/-- `decreaseQuality`: one tier down, saturating at the lowest. -/
def decreaseQuality (q : Nat) : Nat := if q = 0 then q else q - 1

/-- `increaseQuality`: one tier up, saturating at the highest. -/
def increaseQuality (q : Nat) : Nat := if q = 2 then q else q + 1

/-- State after the constructor, which records `Date.now()` into
`lastAdjustment` and starts at the medium tier. -/
def initABR (constructedAt : Nat) : ABRState :=
  { currentQuality := 1, lastAdjustment := constructedAt }

/-- `monitorAndAdjust(stats)` at time `now` with derived metrics `m`:
return unchanged when called within the threshold of the last
processed sample; otherwise decrease a tier on bad network, increase
on good network, hold otherwise, and record `now`. -/
def monitorAndAdjust (st : ABRState) (now : Nat) (m : Metrics) : ABRState :=
  if now - st.lastAdjustment < adjustmentThreshold then st
  else
    let q :=
      if m.packetLoss > 5 ∨ m.rtt > 200 then decreaseQuality st.currentQuality
      else if m.packetLoss < 1 ∧ m.rtt < 50 ∧ m.bandwidth > 2000000 then
        increaseQuality st.currentQuality
      else st.currentQuality
    { currentQuality := q, lastAdjustment := now }

end ABR

namespace Demo

open Signaling

/-- A registry with stream `"s"` owned by broadcaster `7` with one
viewer `3` (used to exercise the overwrite semantics of
`join-as-broadcaster`). -/
def broadcasterSwapState : ServerState :=
  { streams := fun x => if x = "s" then some ⟨some 7, [3]⟩ else none
    conns := fun _ => ⟨none, none⟩
    isOpen := fun _ => true }

/-- A running session on `"s"`: broadcaster `7`, viewers `3` and `4`,
every socket open, roles as assigned by the joins. -/
def relayState : ServerState :=
  { streams := fun x => if x = "s" then some ⟨some 7, [3, 4]⟩ else none
    conns := fun x =>
      if x = 7 then ⟨some "s", some Role.broadcaster⟩
      else if x = 3 ∨ x = 4 then ⟨some "s", some Role.viewer⟩
      else ⟨none, none⟩
    isOpen := fun _ => true }

/-- A session on `"s"` whose only member is broadcaster `1`. -/
def soleBroadcasterState : ServerState :=
  { streams := fun x => if x = "s" then some ⟨some 1, []⟩ else none
    conns := fun x => if x = 1 then ⟨some "s", some Role.broadcaster⟩ else ⟨none, none⟩
    isOpen := fun _ => true }

/-- Server state after viewer `1` joins stream `"s"`. -/
def viewerJoin1 : ServerState :=
  (handleMessage initialState 1 0 (InMsg.joinAsViewer "s")).1

/-- Server state after viewer `2` also joins stream `"s"`. -/
def viewerJoin2 : ServerState :=
  (handleMessage viewerJoin1 2 0 (InMsg.joinAsViewer "s")).1

/-- Server state after viewer `1` then disconnects. -/
def afterViewer1Leaves : ServerState :=
  (handleClose viewerJoin2 1).1

/-- Client viewer state right after `startViewing`: the peer connection
exists, no remote description yet. -/
def viewerWaiting : BC.StreamerState :=
  (BC.startViewing BC.newStreamerState).1

/-- The viewer state after the offer has been handled (remote and local
descriptions set, no candidates applied). -/
def viewerNegotiated : BC.StreamerState :=
  (BC.handleOffer viewerWaiting BC.allOk "offer-from-broadcaster").1

/-- A two-track local capture, both tracks live. -/
def demoTracks : List BC.Track :=
  [⟨"video", true⟩, ⟨"audio", true⟩]

/-- Broadcaster-side client state after `startBroadcast` with
`demoTracks`. -/
def broadcasting : BC.StreamerState :=
  BC.startBroadcast BC.newStreamerState demoTracks

end Demo

namespace Signaling

theorem setStream_self (f : String → Option Session) (k : String) (v : Session) :
    setStream f k v k = some v := by
  simp [setStream]

theorem setStream_ne (f : String → Option Session) (k : String) (v : Session)
    {x : String} (h : x ≠ k) : setStream f k v x = f x := by
  simp [setStream, h]

theorem delStream_self (f : String → Option Session) (k : String) :
    delStream f k k = none := by
  simp [delStream]

theorem delStream_ne (f : String → Option Session) (k : String)
    {x : String} (h : x ≠ k) : delStream f k x = f x := by
  simp [delStream, h]

end Signaling

open Signaling in
/-- **C2.** Processing `join-as-broadcaster(streamId)` creates the
session if absent, sets its broadcaster to the joining connection —
overwriting any pre-existing broadcaster, so the single
`broadcaster` field of the session (at most one connection per
streamId) now names the last joiner — leaves the viewer set unchanged,
leaves every other stream untouched, and immediately sends
`broadcaster-available` to every viewer currently in the session. -/
theorem joinAsBroadcaster_overwrites_and_notifies
    (s : ServerState) (c : Conn) (now : Nat) (sid : String) :
    (handleMessage s c now (InMsg.joinAsBroadcaster sid)).1.streams sid
      = some ⟨some c, ((s.streams sid).getD ⟨none, []⟩).viewers⟩
    ∧ (∀ sid', sid' ≠ sid →
        (handleMessage s c now (InMsg.joinAsBroadcaster sid)).1.streams sid'
          = s.streams sid')
    ∧ (handleMessage s c now (InMsg.joinAsBroadcaster sid)).2
      = ((s.streams sid).getD ⟨none, []⟩).viewers.map
          (fun v => (v, OutMsg.broadcasterAvailable)) := by
  cases h : s.streams sid with
  | none =>
    refine ⟨?_, fun sid' hne => ?_, ?_⟩ <;>
      simp [handleMessage, h, setStream_self, setStream, *]
  | some sess =>
    refine ⟨?_, fun sid' hne => ?_, ?_⟩ <;>
      simp [handleMessage, h, setStream_self, setStream, *]

open Signaling in
/-- Witness for C2: broadcaster `9` joins stream `"s"`, which already
has broadcaster `7` and viewer `3`: the broadcaster field is
overwritten to `9`, stream `"t"` is untouched, and viewer `3` is
notified. -/
theorem joinAsBroadcaster_overwrites_and_notifies_witness :
    (handleMessage Demo.broadcasterSwapState 9 0 (InMsg.joinAsBroadcaster "s")).1.streams "s"
      = some ⟨some 9, [3]⟩
    ∧ (handleMessage Demo.broadcasterSwapState 9 0 (InMsg.joinAsBroadcaster "s")).1.streams "t"
      = Demo.broadcasterSwapState.streams "t"
    ∧ (handleMessage Demo.broadcasterSwapState 9 0 (InMsg.joinAsBroadcaster "s")).2
      = [(3, OutMsg.broadcasterAvailable)] :=
  ⟨(joinAsBroadcaster_overwrites_and_notifies Demo.broadcasterSwapState 9 0 "s").1,
   (joinAsBroadcaster_overwrites_and_notifies Demo.broadcasterSwapState 9 0 "s").2.1
     "t" (by decide),
   (joinAsBroadcaster_overwrites_and_notifies Demo.broadcasterSwapState 9 0 "s").2.2⟩

namespace Signaling

theorem findViewerById_empty (l : List Conn) : findViewerById l "" = none := rfl

end Signaling

open Signaling in
/-- **C3.** Relay of `offer`/`answer`/`ice-candidate` by the server,
for a sender whose current stream exists: (a) from a broadcaster, a
`targetViewerId` that resolves to a known viewer gets the payload
delivered unchanged to that viewer only; (b) from a broadcaster, an
absent or unresolvable `targetViewerId` falls back to delivering the
payload to every viewer in the session (all of whose sockets are
open); (c) from a viewer, the payload is delivered to the session's
(open) broadcaster tagged with the sender's viewer id.  In all cases
the registry is unchanged. -/
theorem relay_delivery_spec
    (s : ServerState) (c : Conn) (now : Nat) (kind : SigKind) (payload : String)
    (target : Option String) (sid : String) (sess : Session)
    (hsid : (s.conns c).currentStreamId = some sid)
    (hne : sid ≠ "")
    (hsess : s.streams sid = some sess) :
    (handleMessage s c now (InMsg.signal kind payload target)).1 = s
    ∧ ((s.conns c).role = some Role.broadcaster →
        ∀ tv v, target = some tv → findViewerById sess.viewers tv = some v →
          (handleMessage s c now (InMsg.signal kind payload target)).2
            = [(v, OutMsg.forward kind payload)])
    ∧ ((s.conns c).role = some Role.broadcaster →
        (∀ v ∈ sess.viewers, s.isOpen v = true) →
        (target = none ∨ ∃ tv, target = some tv ∧ findViewerById sess.viewers tv = none) →
          (handleMessage s c now (InMsg.signal kind payload target)).2
            = sess.viewers.map (fun v => (v, OutMsg.forward kind payload)))
    ∧ ((s.conns c).role = some Role.viewer →
        ∀ b, sess.broadcaster = some b → s.isOpen b = true →
          (handleMessage s c now (InMsg.signal kind payload target)).2
            = [(b, OutMsg.forwardFromViewer kind payload
                    (getViewerId s.streams c sid now))]) := by
  refine ⟨rfl, ?_, ?_, ?_⟩
  · intro hrole tv v htv hfind
    have htv' : tv ≠ "" := by
      intro h
      rw [h, findViewerById_empty] at hfind
      exact Option.noConfusion hfind
    show relayOut s c now kind payload target = _
    simp [relayOut, hsid, hne, hsess, hrole, htv, htv', hfind]
  · intro hrole hopen hfall
    show relayOut s c now kind payload target = _
    have hfilter : sess.viewers.filter (fun v => s.isOpen v) = sess.viewers :=
      List.filter_eq_self.mpr hopen
    rcases hfall with htv | ⟨tv, htv, hfind⟩
    · simp [relayOut, hsid, hne, hsess, hrole, htv, hfilter]
    · by_cases htv' : tv = ""
      · simp [relayOut, hsid, hne, hsess, hrole, htv, htv', hfilter]
      · simp [relayOut, hsid, hne, hsess, hrole, htv, htv', hfind, hfilter]
  · intro hrole b hb hob
    show relayOut s c now kind payload target = _
    simp [relayOut, hsid, hne, hsess, hrole, hb, hob]

open Signaling in
/-- Witness for C3, in the session `Demo.relayState` (broadcaster `7`,
viewers `[3, 4]`): a broadcaster `offer` targeted at `"viewer-1"` goes
to viewer `4` alone; an untargeted broadcaster `offer` fans out to
both viewers; viewer `3`'s `answer` goes to broadcaster `7` tagged
`"viewer-0"`. -/
theorem relay_delivery_spec_witness :
    (handleMessage Demo.relayState 7 0
        (InMsg.signal SigKind.offer "sdp" (some "viewer-1"))).2
      = [(4, OutMsg.forward SigKind.offer "sdp")]
    ∧ (handleMessage Demo.relayState 7 0 (InMsg.signal SigKind.offer "sdp" none)).2
      = [(3, OutMsg.forward SigKind.offer "sdp"), (4, OutMsg.forward SigKind.offer "sdp")]
    ∧ (handleMessage Demo.relayState 3 0 (InMsg.signal SigKind.answer "sdp" none)).2
      = [(7, OutMsg.forwardFromViewer SigKind.answer "sdp" "viewer-0")] := by
  refine ⟨?_, ?_, ?_⟩
  · exact (relay_delivery_spec Demo.relayState 7 0 SigKind.offer "sdp"
      (some "viewer-1") "s" ⟨some 7, [3, 4]⟩ rfl (by decide) rfl).2.1 rfl
      "viewer-1" 4 rfl (by decide)
  · exact (relay_delivery_spec Demo.relayState 7 0 SigKind.offer "sdp"
      none "s" ⟨some 7, [3, 4]⟩ rfl (by decide) rfl).2.2.1 rfl
      (by decide) (Or.inl rfl)
  · exact (relay_delivery_spec Demo.relayState 3 0 SigKind.answer "sdp"
      none "s" ⟨some 7, [3, 4]⟩ rfl (by decide) rfl).2.2.2 rfl
      7 rfl rfl

namespace Signaling

theorem addViewer_ne_nil (l : List Conn) (c : Conn) : addViewer l c ≠ [] := by
  unfold addViewer
  split_ifs with h
  · intro hnil
    rw [hnil] at h
    exact absurd h (List.not_mem_nil c)
  · simp

theorem setStream_setStream (f : String → Option Session) (k : String)
    (v₀ v : Session) : setStream (setStream f k v₀) k v = setStream f k v := by
  funext x
  unfold setStream
  split_ifs <;> rfl

theorem sessionsWF_set (f : String → Option Session) (k : String) (v : Session)
    (hf : ∀ sid sess, f sid = some sess →
      sess.broadcaster ≠ none ∨ sess.viewers ≠ [])
    (hv : v.broadcaster ≠ none ∨ v.viewers ≠ []) :
    ∀ sid sess, setStream f k v sid = some sess →
      sess.broadcaster ≠ none ∨ sess.viewers ≠ [] := by
  intro sid sess h
  unfold setStream at h
  split_ifs at h with hx
  · injection h with h
    subst h
    exact hv
  · exact hf _ _ h

theorem sessionsWF_del (f : String → Option Session) (k : String)
    (hf : ∀ sid sess, f sid = some sess →
      sess.broadcaster ≠ none ∨ sess.viewers ≠ []) :
    ∀ sid sess, delStream f k sid = some sess →
      sess.broadcaster ≠ none ∨ sess.viewers ≠ [] := by
  intro sid sess h
  unfold delStream at h
  split_ifs at h with hx
  · exact hf _ _ h

theorem sessionsWF_handleMessage (s : ServerState) (c : Conn) (now : Nat)
    (m : InMsg) (hwf : SessionsWF s) : SessionsWF (handleMessage s c now m).1 := by
  cases m with
  | joinAsBroadcaster sid =>
    rcases hs : s.streams sid with _ | sess₀
    · intro sid' sess' h
      simp only [handleMessage, hs, setStream_self, Option.getD_some] at h
      rw [setStream_setStream] at h
      exact sessionsWF_set s.streams sid _ hwf (Or.inl (by simp)) _ _ h
    · intro sid' sess' h
      simp only [handleMessage, hs, setStream_self, Option.getD_some] at h
      exact sessionsWF_set s.streams sid _ hwf (Or.inl (by simp)) _ _ h
  | joinAsViewer sid =>
    rcases hs : s.streams sid with _ | sess₀
    · intro sid' sess' h
      simp only [handleMessage, hs, setStream_self, Option.getD_some] at h
      rw [setStream_setStream] at h
      refine sessionsWF_set s.streams sid _ hwf (Or.inr ?_) _ _ h
      simp only []
      exact addViewer_ne_nil _ _
    · intro sid' sess' h
      simp only [handleMessage, hs, setStream_self, Option.getD_some] at h
      refine sessionsWF_set s.streams sid _ hwf (Or.inr ?_) _ _ h
      simp only []
      exact addViewer_ne_nil _ _
  | requestStream => exact hwf
  | signal kind payload target => exact hwf

theorem sessionsWF_handleClose (s : ServerState) (c : Conn)
    (hwf : SessionsWF s) : SessionsWF (handleClose s c).1 := by
  intro sid' sess' h
  rcases hinfo : (s.conns c).currentStreamId with _ | sid
  · simp only [handleClose, hinfo] at h
    exact hwf _ _ h
  · by_cases hsid : sid = ""
    · simp only [handleClose, hinfo, hsid] at h
      simp only [if_pos] at h
      exact hwf _ _ h
    · rcases hsess : s.streams sid with _ | sess
      · simp only [handleClose, hinfo, hsess, if_neg hsid] at h
        exact hwf _ _ h
      · rcases hrole : (s.conns c).role with _ | r
        · simp only [handleClose, hinfo, hsess, hrole, if_neg hsid] at h
          split_ifs at h with hemp
          · exact sessionsWF_del s.streams sid hwf _ _ h
          · exact hwf _ _ h
        · simp only [handleClose, hinfo, hsess, hrole, if_neg hsid] at h
          split_ifs at h with hemp
          · exact sessionsWF_del s.streams sid hwf _ _ h
          · refine sessionsWF_set s.streams sid _ hwf ?_ _ _ h
            rw [not_and_or] at hemp
            exact hemp

theorem sessionsWF_step (s : ServerState) (e : Event) (hwf : SessionsWF s) :
    SessionsWF (step s e).1 := by
  cases e with
  | message c now raw =>
    cases raw with
    | none => exact hwf
    | some m => exact sessionsWF_handleMessage s c now m hwf
  | connClose c => exact sessionsWF_handleClose s c hwf

theorem handleClose_registry (s : ServerState) (c : Conn) (sid : String)
    (sess : Session) (r : Role)
    (hconn : s.conns c = ⟨some sid, some r⟩) (hsid : sid ≠ "")
    (hsess : s.streams sid = some sess) :
    (handleClose s c).1.streams sid =
      (if (closeMutation sess r c).broadcaster = none
          ∧ (closeMutation sess r c).viewers = []
       then none else some (closeMutation sess r c)) := by
  simp only [handleClose, hconn, hsess, if_neg hsid]
  split_ifs with hemp
  · exact delStream_self s.streams sid
  · exact setStream_self s.streams sid _

end Signaling

namespace Demo

theorem soleBroadcasterState_wf : Signaling.SessionsWF soleBroadcasterState := by
  intro sid sess h
  by_cases hx : sid = "s"
  · subst hx
    simp only [soleBroadcasterState, if_pos] at h
    injection h with h
    subst h
    exact Or.inl (by simp)
  · simp [soleBroadcasterState, hx] at h

end Demo

open Signaling in
/-- **C4.** Between message-handling steps, every session present in
the registry has a broadcaster or at least one viewer (the invariant
is preserved by every server event: creation on first join puts a
member in immediately).  After a connection-close mutation, the
session is deleted exactly when its broadcaster is absent and its
viewer set is empty; when it is deleted, the registry reads for that
streamId exactly as a freshly started server's does (operations only
consult the registry through such reads, so a deleted streamId behaves
identically to a never-created one). -/
theorem registry_session_iff_nonempty (s : ServerState) (e : Event)
    (hwf : SessionsWF s) :
    SessionsWF (step s e).1
    ∧ (∀ c sid sess r, s.conns c = ⟨some sid, some r⟩ → sid ≠ "" →
        s.streams sid = some sess →
        (handleClose s c).1.streams sid =
          (if (closeMutation sess r c).broadcaster = none
              ∧ (closeMutation sess r c).viewers = []
           then none else some (closeMutation sess r c))
        ∧ ((closeMutation sess r c).broadcaster = none
            ∧ (closeMutation sess r c).viewers = [] →
           (handleClose s c).1.streams sid = initialState.streams sid)) := by
  refine ⟨sessionsWF_step s e hwf, fun c sid sess r hconn hsid hsess => ?_⟩
  have h := handleClose_registry s c sid sess r hconn hsid hsess
  exact ⟨h, fun hemp => by rw [h, if_pos hemp]; rfl⟩

open Signaling in
/-- Witness for C4: in `Demo.soleBroadcasterState` (stream `"s"` held
by broadcaster `1` alone), the invariant is preserved across the close
of connection `1`, and the session is deleted — stream `"s"` then
reads as on a fresh server. -/
theorem registry_session_iff_nonempty_witness :
    SessionsWF (step Demo.soleBroadcasterState (Event.connClose 1)).1
    ∧ (handleClose Demo.soleBroadcasterState 1).1.streams "s" = none :=
  ⟨(registry_session_iff_nonempty Demo.soleBroadcasterState (Event.connClose 1)
      Demo.soleBroadcasterState_wf).1,
   by
     have h := (registry_session_iff_nonempty Demo.soleBroadcasterState
       (Event.connClose 1) Demo.soleBroadcasterState_wf).2
       1 "s" ⟨some 1, []⟩ Role.broadcaster rfl (by decide) rfl
     simpa [closeMutation] using h.1⟩

open Signaling in
/-- **C6** (code-bug demonstration).  Viewer ids are recomputed from
the position in the current viewer set: with viewers `1` and `2` in
stream `"s"`, viewer `2`'s id is `"viewer-1"`; after viewer `1`
disconnects, the same computation for the still-present viewer `2`
returns `"viewer-0"`.  The id is not stable across other viewers
leaving, contradicting the required `ViewerIdentity` stability. -/
theorem viewer_id_unstable_after_leave :
    getViewerId Demo.viewerJoin2.streams 2 "s" 77 = "viewer-1"
    ∧ getViewerId Demo.afterViewer1Leaves.streams 2 "s" 77 = "viewer-0"
    ∧ 2 ∈ ((Demo.viewerJoin2.streams "s").getD ⟨none, []⟩).viewers
    ∧ 2 ∈ ((Demo.afterViewer1Leaves.streams "s").getD ⟨none, []⟩).viewers
    ∧ getViewerId Demo.viewerJoin2.streams 2 "s" 77
        ≠ getViewerId Demo.afterViewer1Leaves.streams 2 "s" 77 := by
  refine ⟨?_, ?_, ?_, ?_, ?_⟩ <;> decide

open Signaling in
/-- **C7.** A malformed payload is logged and discarded: the server
state (including every connection's transport state) is unchanged,
nothing is sent, and the connection stays open.  Moreover no inbound
message whatsoever alters any connection's open/closed transport
state — only a transport-level close event does. -/
theorem malformed_payload_logged_discarded (s : ServerState) (c : Conn) (now : Nat) :
    handleRaw s c now none = (s, [], true)
    ∧ (∀ m : InMsg, (handleRaw s c now (some m)).1.isOpen = s.isOpen) := by
  refine ⟨rfl, fun m => ?_⟩
  cases m <;> rfl

/-- **C1** (counterexample).  In the viewer state right after
`startViewing` (peer connection present, remote description not yet
set), a remote ICE candidate is not buffered: the handler attempts
`addIceCandidate` immediately, the add fails (no remote description),
the error is logged and the state is unchanged; after the offer later
sets the remote description, the candidate list is still empty — the
candidate was lost, and nothing was ever applied "after the
description is set". -/
theorem ice_candidate_before_description_lost :
    (BC.handleIceCandidate Demo.viewerWaiting BC.allOk "cand-1").1 = Demo.viewerWaiting
    ∧ (BC.handleIceCandidate Demo.viewerWaiting BC.allOk "cand-1").2.errorLogged = true
    ∧ (BC.handleOffer (BC.handleIceCandidate Demo.viewerWaiting BC.allOk "cand-1").1
          BC.allOk "sdp").1.peerConnection
        = some { remoteDescSet := true, localDescSet := true, applied := [], tracks := [] } :=
  ⟨rfl, rfl, rfl⟩

/-- **C1** (amended).  `handleIceCandidate` keeps no buffer: with a
peer connection whose remote description is set (and a willing
environment) the candidate is applied immediately, exactly once; with
a peer connection but no remote description the add is attempted
immediately, fails, and the candidate is dropped with an error logged;
with no peer connection the candidate is dropped with an error
logged. -/
theorem ice_candidate_immediate_no_buffer
    (st : BC.StreamerState) (o : BC.Oracle) (c : BC.Cand) :
    (∀ pc, st.peerConnection = some pc → pc.remoteDescSet = true →
      o.addIceCandidateOk = true →
      (BC.handleIceCandidate st o c).1.peerConnection
        = some { pc with applied := pc.applied ++ [c] }
      ∧ (BC.handleIceCandidate st o c).2.errorLogged = false)
    ∧ (∀ pc, st.peerConnection = some pc → pc.remoteDescSet = false →
      (BC.handleIceCandidate st o c).1 = st
      ∧ (BC.handleIceCandidate st o c).2.errorLogged = true)
    ∧ (st.peerConnection = none →
      (BC.handleIceCandidate st o c).1 = st
      ∧ (BC.handleIceCandidate st o c).2.errorLogged = true) := by
  refine ⟨fun pc hpc h1 h2 => ?_, fun pc hpc h1 => ?_, fun hpc => ?_⟩
  · simp [BC.handleIceCandidate, hpc, BC.rtcAddIceCandidateOk, h1, h2]
  · simp [BC.handleIceCandidate, hpc, BC.rtcAddIceCandidateOk, h1]
  · simp [BC.handleIceCandidate, hpc]

/-- Witness for the amended C1: in the negotiated viewer state a
candidate is applied exactly once; in the pre-description state it is
dropped with an error logged. -/
theorem ice_candidate_immediate_no_buffer_witness :
    (BC.handleIceCandidate Demo.viewerNegotiated BC.allOk "cand-2").1.peerConnection
      = some { remoteDescSet := true, localDescSet := true
               applied := ["cand-2"], tracks := [] }
    ∧ (BC.handleIceCandidate Demo.viewerWaiting BC.allOk "cand-2").2.errorLogged = true :=
  ⟨((ice_candidate_immediate_no_buffer Demo.viewerNegotiated BC.allOk "cand-2").1
      ⟨true, true, [], []⟩ rfl rfl rfl).1,
   ((ice_candidate_immediate_no_buffer Demo.viewerWaiting BC.allOk "cand-2").2.1
      ⟨false, false, [], []⟩ rfl rfl).2⟩

/-- **C8** (counterexample).  When `setRemoteDescription` rejects
while handling an offer, the error is caught and logged inside the
handler and the triggering call resolves normally — it is not
rejected. -/
theorem negotiation_failure_call_resolves :
    (BC.handleOffer Demo.viewerWaiting ⟨false, true, true, true, true⟩ "sdp").2.rejected
      = false
    ∧ (BC.handleOffer Demo.viewerWaiting ⟨false, true, true, true, true⟩ "sdp").2.errorLogged
      = true :=
  ⟨rfl, rfl⟩

/-- **C8** (amended).  Every SDP/ICE negotiation failure inside
`handleOffer`, `handleAnswer` or `handleIceCandidate` is caught and
logged; the triggering call always resolves (never rejects), and no
primitive is auto-retried (each is attempted at most once per
invocation). -/
theorem negotiation_failures_logged_not_rejected
    (st : BC.StreamerState) (o : BC.Oracle) (sdp : String) (c : BC.Cand) :
    ((BC.handleOffer st o sdp).2.rejected = false
      ∧ (BC.handleOffer st o sdp).2.attempts.Nodup)
    ∧ ((BC.handleAnswer st o sdp).2.rejected = false
      ∧ (BC.handleAnswer st o sdp).2.attempts.Nodup)
    ∧ ((BC.handleIceCandidate st o c).2.rejected = false
      ∧ (BC.handleIceCandidate st o c).2.attempts.Nodup)
    ∧ (∀ pc, st.peerConnection = some pc →
        (o.setRemoteDescriptionOk = false ∨ o.createAnswerOk = false
          ∨ o.setLocalDescriptionOk = false) →
        (BC.handleOffer st o sdp).2.errorLogged = true)
    ∧ (∀ pc, st.peerConnection = some pc → o.setRemoteDescriptionOk = false →
        (BC.handleAnswer st o sdp).2.errorLogged = true)
    ∧ (∀ pc, st.peerConnection = some pc → BC.rtcAddIceCandidateOk pc o = false →
        (BC.handleIceCandidate st o c).2.errorLogged = true) := by
  rcases o with ⟨srd, ca, sld, add, co⟩
  rcases hpc : st.peerConnection with _ | pc <;>
    cases srd <;> cases ca <;> cases sld <;> cases add <;>
      refine ⟨⟨?_, ?_⟩, ⟨?_, ?_⟩, ⟨?_, ?_⟩, fun pc' hpc' hfail => ?_,
        fun pc' hpc' hfail => ?_, fun pc' hpc' hfail => ?_⟩ <;>
      simp_all [BC.handleOffer, BC.handleAnswer, BC.handleIceCandidate,
        BC.rtcAddIceCandidateOk] <;>
      first
        | decide
        | (cases hrd : pc.remoteDescSet <;> simp_all <;> decide)

/-- Witness for the amended C8: with a failing `setRemoteDescription`,
`handleOffer` and `handleAnswer` both log and resolve; with no remote
description set, `handleIceCandidate` logs and resolves; the attempt
lists are duplicate-free. -/
theorem negotiation_failures_logged_not_rejected_witness :
    (BC.handleOffer Demo.viewerWaiting ⟨false, true, true, true, true⟩ "sdp").2.rejected
      = false
    ∧ (BC.handleOffer Demo.viewerWaiting ⟨false, true, true, true, true⟩ "sdp").2.errorLogged
      = true
    ∧ (BC.handleAnswer Demo.viewerWaiting ⟨false, true, true, true, true⟩ "sdp").2.errorLogged
      = true
    ∧ (BC.handleIceCandidate Demo.viewerWaiting BC.allOk "cand").2.errorLogged = true
    ∧ (BC.handleOffer Demo.viewerWaiting BC.allOk "sdp").2.attempts.Nodup :=
  ⟨(negotiation_failures_logged_not_rejected Demo.viewerWaiting
      ⟨false, true, true, true, true⟩ "sdp" "cand").1.1,
   (negotiation_failures_logged_not_rejected Demo.viewerWaiting
      ⟨false, true, true, true, true⟩ "sdp" "cand").2.2.2.1
     ⟨false, false, [], []⟩ rfl (Or.inl rfl),
   (negotiation_failures_logged_not_rejected Demo.viewerWaiting
      ⟨false, true, true, true, true⟩ "sdp" "cand").2.2.2.2.1
     ⟨false, false, [], []⟩ rfl rfl,
   (negotiation_failures_logged_not_rejected Demo.viewerWaiting
      BC.allOk "sdp" "cand").2.2.2.2.2
     ⟨false, false, [], []⟩ rfl rfl,
   (negotiation_failures_logged_not_rejected Demo.viewerWaiting
      BC.allOk "sdp" "cand").1.2⟩

/-- **C10.** `stopBroadcast()` closes and nulls only the peer
connection: the signaling channel stays open and the viewer-request
handler stays installed, so a subsequent `request-stream` message
creates a fresh peer connection with the stored local tracks attached
and posts a new offer; after `close()`, by contrast, the channel is
closed and a `request-stream` message does nothing. -/
theorem stopBroadcast_keeps_handler_and_channel
    (st : BC.StreamerState) (tracks : List BC.Track)
    (hh : st.viewerRequestHandlerInstalled = true)
    (hl : st.localStream = some tracks)
    (hlive : (tracks.filter (fun t => t.live)).isEmpty = false)
    (hopen : st.signalingOpen = true) :
    BC.stopBroadcast st = { st with peerConnection := none }
    ∧ (BC.onSignalMessage (BC.stopBroadcast st) BC.allOk BC.InSig.requestStream).1.peerConnection
        = some { BC.freshPeerConnection tracks with localDescSet := true }
    ∧ (BC.onSignalMessage (BC.stopBroadcast st) BC.allOk BC.InSig.requestStream).2.sent
        = [BC.OutSig.offer BC.offerSdp]
    ∧ BC.onSignalMessage (BC.close st) BC.allOk BC.InSig.requestStream
        = (BC.close st, BC.silent) := by
  refine ⟨rfl, ?_, ?_, ?_⟩
  · simp [BC.onSignalMessage, BC.stopBroadcast, BC.onViewerRequest, BC.allOk,
      hopen, hh, hl, hlive]
  · simp [BC.onSignalMessage, BC.stopBroadcast, BC.onViewerRequest, BC.allOk,
      hopen, hh, hl, hlive]
  · simp [BC.onSignalMessage, BC.close, BC.stopBroadcast]

/-- Witness for C10: the broadcaster state built by `startBroadcast`
with two live tracks re-offers on `request-stream` after
`stopBroadcast`, and is silent after `close`. -/
theorem stopBroadcast_keeps_handler_and_channel_witness :
    (BC.onSignalMessage (BC.stopBroadcast Demo.broadcasting) BC.allOk
        BC.InSig.requestStream).1.peerConnection
      = some { BC.freshPeerConnection Demo.demoTracks with localDescSet := true }
    ∧ (BC.onSignalMessage (BC.stopBroadcast Demo.broadcasting) BC.allOk
        BC.InSig.requestStream).2.sent
      = [BC.OutSig.offer BC.offerSdp]
    ∧ BC.onSignalMessage (BC.close Demo.broadcasting) BC.allOk BC.InSig.requestStream
      = (BC.close Demo.broadcasting, BC.silent) :=
  ⟨(stopBroadcast_keeps_handler_and_channel Demo.broadcasting Demo.demoTracks
      (by decide) (by decide) (by decide) (by decide)).2.1,
   (stopBroadcast_keeps_handler_and_channel Demo.broadcasting Demo.demoTracks
      (by decide) (by decide) (by decide) (by decide)).2.2.1,
   (stopBroadcast_keeps_handler_and_channel Demo.broadcasting Demo.demoTracks
      (by decide) (by decide) (by decide) (by decide)).2.2.2⟩

namespace Player

theorem retryTrace_spec (n : Nat) :
    (retryTrace n).1.connected = false
    ∧ (retryTrace n).1.status = ConnStatus.buffering
    ∧ (retryTrace n).1.retryCount = min n maxRetries
    ∧ ((retryTrace n).2 = none ∨ (retryTrace n).2 = some retryDelayMs) := by
  induction n with
  | zero => exact ⟨rfl, rfl, rfl, Or.inr rfl⟩
  | succ n ih =>
    obtain ⟨ic, is, irc, _⟩ := ih
    have hstep : retryTrace (n + 1) = timerFires (retryTrace n).1 := rfl
    rcases hS : retryTrace n with ⟨st, d⟩
    rw [hS] at ic is irc
    simp only at ic is irc
    rw [hstep, hS]
    simp only
    unfold timerFires connectToStream
    split_ifs with h1 h2
    · simp only at h2
      rw [ic] at h2
      exact absurd h2 (by simp)
    · refine ⟨by simpa using ic, by simpa using is, ?_, Or.inr rfl⟩
      simp only
      rw [irc] at h1 ⊢
      have hlt := h1.2
      unfold maxRetries at *
      omega
    · refine ⟨by simpa using ic, by simpa using is, ?_, Or.inl rfl⟩
      simp only
      rw [irc]
      rw [not_and_or] at h1
      rcases h1 with h1 | h1
      · rw [ic] at h1
        simp at h1
      · rw [irc] at h1
        unfold maxRetries at *
        omega

theorem retryTrace_eleven :
    retryTrace 11 = (⟨10, false, false, ConnStatus.buffering⟩, none) := by
  decide

theorem retryTrace_stable (n : Nat) (h : 11 ≤ n) :
    retryTrace n = retryTrace 11 := by
  induction n with
  | zero => omega
  | succ n ih =>
    rcases Nat.lt_or_ge n 11 with hn | hn
    · have hone : n + 1 = 11 := by omega
      rw [hone]
    · have ih' := ih hn
      have hstep : retryTrace (n + 1) = timerFires (retryTrace n).1 := rfl
      rw [hstep, ih', retryTrace_eleven]
      decide

end Player

/-- **C5** (counterexample).  The `StreamPlayer` retry loop schedules
its first and second retries with the same constant 3000 ms delay, so
the sequence of reconnect delays is not strictly increasing (and in
particular is not `attempt_count * base_delay`). -/
theorem player_retry_delays_not_increasing :
    (Player.retryTrace 1).2 = some 3000 ∧ (Player.retryTrace 2).2 = some 3000 := by
  exact ⟨by decide, by decide⟩

/-- **C5** (amended).  In the run where no stream ever arrives, every
scheduled retry delay is the constant 3000 ms; retries stop
permanently once the ceiling of 10 retries is reached (from step 11 on
the state never changes and no timer is pending); and no terminal
failure is ever surfaced — the connection status remains `buffering`
at every step. -/
theorem player_retry_constant_ceiling_silent (n : Nat) :
    ((Player.retryTrace n).2 = none ∨ (Player.retryTrace n).2 = some Player.retryDelayMs)
    ∧ (Player.retryTrace n).1.status = Player.ConnStatus.buffering
    ∧ (Player.retryTrace n).1.retryCount = min n Player.maxRetries
    ∧ (11 ≤ n → Player.retryTrace n = Player.retryTrace 11
        ∧ (Player.retryTrace n).2 = none ∧ (Player.retryTrace n).1.timerPending = false) :=
  ⟨(Player.retryTrace_spec n).2.2.2, (Player.retryTrace_spec n).2.1,
   (Player.retryTrace_spec n).2.2.1,
   fun h => by
     refine ⟨Player.retryTrace_stable n h, ?_, ?_⟩ <;>
       rw [Player.retryTrace_stable n h, Player.retryTrace_eleven] <;> rfl⟩

/-- Witness for the amended C5: at step 12 the system is identical to
step 11, schedules nothing, shows `buffering`, and holds the retry
count at the ceiling. -/
theorem player_retry_constant_ceiling_silent_witness :
    ((Player.retryTrace 3).2 = none ∨ (Player.retryTrace 3).2 = some Player.retryDelayMs)
    ∧ (Player.retryTrace 12).1.status = Player.ConnStatus.buffering
    ∧ (Player.retryTrace 12).1.retryCount = min 12 Player.maxRetries
    ∧ Player.retryTrace 12 = Player.retryTrace 11
    ∧ (Player.retryTrace 12).2 = none :=
  ⟨(player_retry_constant_ceiling_silent 3).1,
   (player_retry_constant_ceiling_silent 12).2.1,
   (player_retry_constant_ceiling_silent 12).2.2.1,
   ((player_retry_constant_ceiling_silent 12).2.2.2 (by decide)).1,
   ((player_retry_constant_ceiling_silent 12).2.2.2 (by decide)).2.1⟩

namespace ABR

theorem decreaseQuality_eq (q : Nat) : decreaseQuality q = q - 1 := by
  unfold decreaseQuality
  split_ifs with h
  · simp [h]
  · rfl

theorem increaseQuality_eq (q : Nat) (hq : q ≤ 2) :
    increaseQuality q = min (q + 1) 2 := by
  unfold increaseQuality
  split_ifs with h <;> omega

end ABR

/-- **C9.** `monitorAndAdjust` at time `now`: a sample arriving sooner
than the 5-second threshold after the previous adjustment changes
nothing at all; otherwise the adjustment timestamp is set to `now`
and the quality tier is decreased by one (saturating at the lowest
tier) when loss > 5 % or RTT > 200 ms, increased by one (saturating at
the highest tier) when loss < 1 %, RTT < 50 ms and bandwidth > 2 Mbps,
and held otherwise. -/
theorem abr_hysteresis_policy (st : ABR.ABRState) (now : Nat) (m : ABR.Metrics)
    (hq : st.currentQuality ≤ 2) :
    (now - st.lastAdjustment < ABR.adjustmentThreshold →
      ABR.monitorAndAdjust st now m = st)
    ∧ (ABR.adjustmentThreshold ≤ now - st.lastAdjustment →
        (ABR.monitorAndAdjust st now m).lastAdjustment = now
        ∧ ((m.packetLoss > 5 ∨ m.rtt > 200) →
            (ABR.monitorAndAdjust st now m).currentQuality = st.currentQuality - 1)
        ∧ (m.packetLoss < 1 → m.rtt < 50 → m.bandwidth > 2000000 →
            (ABR.monitorAndAdjust st now m).currentQuality
              = min (st.currentQuality + 1) 2)
        ∧ (¬(m.packetLoss > 5 ∨ m.rtt > 200) →
            ¬(m.packetLoss < 1 ∧ m.rtt < 50 ∧ m.bandwidth > 2000000) →
            (ABR.monitorAndAdjust st now m).currentQuality = st.currentQuality)) := by
  constructor
  · intro h
    simp [ABR.monitorAndAdjust, h]
  · intro h
    have hn : ¬ now - st.lastAdjustment < ABR.adjustmentThreshold := not_lt.mpr h
    refine ⟨?_, ?_, ?_, ?_⟩
    · simp only [ABR.monitorAndAdjust, if_neg hn]
    · intro hbad
      simp [ABR.monitorAndAdjust, hn, hbad, ABR.decreaseQuality_eq]
    · intro h1 h2 h3
      have hnb : ¬(m.packetLoss > 5 ∨ m.rtt > 200) := by
        push_neg
        constructor <;> linarith
      simp [ABR.monitorAndAdjust, hn, hnb, h1, h2, h3, ABR.increaseQuality_eq _ hq]
    · intro hnb hng
      simp [ABR.monitorAndAdjust, hn, hnb, hng]

/-- Witness for C9, from the initial medium tier: an early sample
changes nothing; a late bad sample drops to 480p; a late good sample
rises to 1080p; a late middling sample holds 720p. -/
theorem abr_hysteresis_policy_witness :
    ABR.monitorAndAdjust (ABR.initABR 0) 4000 ⟨10, 300, 0⟩ = ABR.initABR 0
    ∧ (ABR.monitorAndAdjust (ABR.initABR 0) 6000 ⟨10, 300, 0⟩).currentQuality = 0
    ∧ (ABR.monitorAndAdjust (ABR.initABR 0) 6000 ⟨0, 10, 3000000⟩).currentQuality = 2
    ∧ (ABR.monitorAndAdjust (ABR.initABR 0) 6000 ⟨2, 100, 3000000⟩).currentQuality = 1
    ∧ (ABR.monitorAndAdjust (ABR.initABR 0) 6000 ⟨10, 300, 0⟩).lastAdjustment = 6000 :=
  ⟨(abr_hysteresis_policy (ABR.initABR 0) 4000 ⟨10, 300, 0⟩ (by decide)).1 (by decide),
   ((abr_hysteresis_policy (ABR.initABR 0) 6000 ⟨10, 300, 0⟩ (by decide)).2
      (by decide)).2.1 (Or.inl (by decide)),
   ((abr_hysteresis_policy (ABR.initABR 0) 6000 ⟨0, 10, 3000000⟩ (by decide)).2
      (by decide)).2.2.1 (by decide) (by decide) (by decide),
   ((abr_hysteresis_policy (ABR.initABR 0) 6000 ⟨2, 100, 3000000⟩ (by decide)).2
      (by decide)).2.2.2 (by decide) (by decide),
   ((abr_hysteresis_policy (ABR.initABR 0) 6000 ⟨10, 300, 0⟩ (by decide)).2
      (by decide)).1⟩

/-- The WebSocket-based client streamer's `handleDisconnect` (the
reconnect path the spec's Session Coordinator section describes):
under the 5-attempt ceiling with a role established it schedules
exactly one reconnect after `2000 * attempt` ms — strictly increasing
across successive attempts — at or past the ceiling it does nothing,
and in no case does it surface any caller-visible failure. -/
theorem ws_handleDisconnect_backoff (s : WS.CoordState) :
    (s.reconnectAttempts < WS.maxReconnectAttempts → s.hasRole = true →
      WS.handleDisconnect s =
        ({ s with reconnectAttempts := s.reconnectAttempts + 1 },
         ⟨some (WS.baseDelayMs * (s.reconnectAttempts + 1)), false⟩))
    ∧ (WS.maxReconnectAttempts ≤ s.reconnectAttempts →
        WS.handleDisconnect s = (s, ⟨none, false⟩))
    ∧ (WS.handleDisconnect s).2.surfacedFailure = false := by
  refine ⟨fun h1 h2 => ?_, fun h => ?_, ?_⟩
  · simp [WS.handleDisconnect, h1, h2]
  · have hn : ¬ s.reconnectAttempts < WS.maxReconnectAttempts := not_lt.mpr h
    simp [WS.handleDisconnect, hn]
  · unfold WS.handleDisconnect
    split_ifs <;> rfl
